import Mathlib

/-!
Verification of the fine-tuning data preparation pipeline in
`api_scripts/prepare_fine_tune_data_gpt.py`.

The script is embedded shallowly: the external world (directory listing,
file reads, the query-synthesis service) is passed in as explicit
functions returning `Option` (with `none` standing for the corresponding
Python exception), and the imperative loop of
`FineTuningDataPreprocessor.generate_training_data` becomes a structural
recursion that threads the list of records and the trace of external
service calls.
-/

namespace PrepareFineTune

/-- One role-tagged chat message, as in the dicts
`{"role": ..., "content": ...}` built by `_process_text_file`. -/
structure Message where
  role : String
  content : String
deriving DecidableEq

/-- One training data entry: the dict `{"messages": [...]}` returned by
`_process_text_file`. -/
structure TrainingEntry where
  messages : List Message
deriving DecidableEq

/-- The kinds of fatal errors the run can surface (each models an uncaught
Python exception propagating out of the corresponding call). -/
inductive BuildError where
  | FilesystemError
  | FileReadError
  | ExternalServiceError
deriving DecidableEq

instance exceptDecEq {ε α : Type} [DecidableEq ε] [DecidableEq α] :
    DecidableEq (Except ε α)
  | Except.ok x, Except.ok y =>
    if h : x = y then Decidable.isTrue (congrArg Except.ok h)
    else Decidable.isFalse (fun hc => h (Except.ok.inj hc))
  | Except.ok _, Except.error _ =>
    Decidable.isFalse (fun hc => Except.noConfusion hc)
  | Except.error _, Except.ok _ =>
    Decidable.isFalse (fun hc => Except.noConfusion hc)
  | Except.error x, Except.error y =>
    if h : x = y then Decidable.isTrue (congrArg Except.error h)
    else Decidable.isFalse (fun hc => h (Except.error.inj hc))

/-- Whitespace as recognised by Python's `str.strip()` (the Unicode
whitespace codepoints of CPython). -/
def pyIsSpace (c : Char) : Bool :=
  (0x09 ≤ c.toNat && c.toNat ≤ 0x0D) ||
  (0x1C ≤ c.toNat && c.toNat ≤ 0x1F) ||
  c.toNat == 0x20 || c.toNat == 0x85 || c.toNat == 0xA0 ||
  c.toNat == 0x1680 ||
  (0x2000 ≤ c.toNat && c.toNat ≤ 0x200A) ||
  c.toNat == 0x2028 || c.toNat == 0x2029 ||
  c.toNat == 0x202F || c.toNat == 0x205F || c.toNat == 0x3000

/-- `str.strip()` on the underlying character list: drop leading and
trailing whitespace, nothing else. -/
def pyStripList (l : List Char) : List Char :=
  ((l.dropWhile pyIsSpace).reverse.dropWhile pyIsSpace).reverse

/-- Python's `str.strip()`. -/
def pyStrip (s : String) : String :=
  String.mk (pyStripList s.data)

/-- Python's `str.endswith`: a suffix test on the character sequence. -/
def py_endswith (s post : String) : Bool :=
  post.data.isSuffixOf s.data

/-- Python's `str.startswith`: a prefix test on the character sequence. -/
def py_startswith (s pre : String) : Bool :=
  pre.data.isPrefixOf s.data

/-- Python's `os.path.join(d, f)` for POSIX paths as used on
`os.listdir` results. -/
def os_path_join (d f : String) : String :=
  if py_startswith f "/" then f
  else if d = "" then f
  else if py_endswith d "/" then d ++ f
  else d ++ "/" ++ f

/-- `FineTuningDataPreprocessor._generate_simulated_query`: one call to
the chat-completions endpoint with the file content, then `.strip()` on
the returned text. `svc` models the service: `none` is a raised API
error. Returns the result together with the trace of service inputs sent
(exactly one: the call is attempted unconditionally). -/
def generate_simulated_query (svc : String → Option String)
    (assistant_response : String) :
    Except BuildError String × List String :=
  match svc assistant_response with
  | none => (Except.error BuildError.ExternalServiceError, [assistant_response])
  | some raw => (Except.ok (pyStrip raw), [assistant_response])

/-- `FineTuningDataPreprocessor._process_text_file`: read the file as
UTF-8 (`readFile`, with `none` a raised read/decode error), synthesize
the query, and assemble the three-message entry. The second component is
the trace of external service calls made. -/
def process_text_file (persona : String) (readFile : String → Option String)
    (svc : String → Option String) (file_path : String) :
    Except BuildError TrainingEntry × List String :=
  match readFile file_path with
  | none => (Except.error BuildError.FileReadError, [])
  | some assistant_response =>
    match generate_simulated_query svc assistant_response with
    | (Except.error e, t) => (Except.error e, t)
    | (Except.ok simulated_query, t) =>
      (Except.ok ⟨[⟨"system", persona⟩,
                   ⟨"user", simulated_query⟩,
                   ⟨"assistant", assistant_response⟩]⟩, t)

/-- The loop body of `FineTuningDataPreprocessor.generate_training_data`
over an explicit `os.listdir` result: keep names ending in `".txt"`,
process each in order, appending entries; the first raised error aborts
the whole loop. -/
def generate_training_data (persona data_directory : String)
    (readFile svc : String → Option String) :
    List String → Except BuildError (List TrainingEntry) × List String
  | [] => (Except.ok [], [])
  | filename :: rest =>
    if py_endswith filename ".txt" then
      match process_text_file persona readFile svc
          (os_path_join data_directory filename) with
      | (Except.error e, t) => (Except.error e, t)
      | (Except.ok entry, t) =>
        match generate_training_data persona data_directory readFile svc rest with
        | (Except.error e, t2) => (Except.error e, t ++ t2)
        | (Except.ok entries, t2) => (Except.ok (entry :: entries), t ++ t2)
    else generate_training_data persona data_directory readFile svc rest

/-- The whole dataset build: `os.listdir` itself may raise (missing or
non-directory path), modelled by `listdir = none`; in that case no file
is read and no service call is made. -/
def build (persona data_directory : String) (listdir : Option (List String))
    (readFile svc : String → Option String) :
    Except BuildError (List TrainingEntry) × List String :=
  match listdir with
  | none => (Except.error BuildError.FilesystemError, [])
  | some names => generate_training_data persona data_directory readFile svc names

/-! ### Serialization: `json.dump` with CPython defaults
(`ensure_ascii=True`, item separator `", "`, key separator `": "`). -/

/-- Lowercase hexadecimal digit character for `n < 16`. -/
def hexDigitChar (n : Nat) : Char :=
  if n < 10 then Char.ofNat (48 + n) else Char.ofNat (87 + n)

/-- The four lowercase hex digits of a codepoint `n < 0x10000`. -/
def hexQuad (n : Nat) : List Char :=
  [hexDigitChar (n / 4096 % 16), hexDigitChar (n / 256 % 16),
   hexDigitChar (n / 16 % 16), hexDigitChar (n % 16)]

/-- The escape `\uXXXX` (four lowercase hex digits) for a codepoint
`n < 0x10000`. -/
def uEscape4 (n : Nat) : List Char :=
  '\\' :: 'u' :: hexQuad n

/-- How CPython's `json.dump` (with `ensure_ascii=True`) writes one
character inside a JSON string: the two-character escapes for quote,
backslash and the five control shorthands; `\uXXXX` for other
non-printable or non-ASCII codepoints, astral codepoints as a UTF-16
surrogate pair; printable ASCII verbatim. -/
def escapeChar (c : Char) : List Char :=
  if c = '"' then ['\\', '"']
  else if c = '\\' then ['\\', '\\']
  else if c = '\n' then ['\\', 'n']
  else if c = '\t' then ['\\', 't']
  else if c = '\r' then ['\\', 'r']
  else if c = Char.ofNat 8 then ['\\', 'b']
  else if c = Char.ofNat 12 then ['\\', 'f']
  else if c.toNat < 0x20 then uEscape4 c.toNat
  else if c.toNat ≤ 0x7e then [c]
  else if c.toNat < 0x10000 then uEscape4 c.toNat
  else uEscape4 (0xD800 + (c.toNat - 0x10000) / 0x400) ++
       uEscape4 (0xDC00 + (c.toNat - 0x10000) % 0x400)

/-- Escape every character of a string body. -/
def escList : List Char → List Char
  | [] => []
  | c :: rest => escapeChar c ++ escList rest

/-- A JSON string literal: quote, escaped body, quote. -/
def jstrL (s : String) : List Char :=
  '"' :: (escList s.data ++ ['"'])

/-- One `"key": "value"` item of an object with string values. -/
def renderPair (kv : String × String) : List Char :=
  jstrL kv.1 ++ ':' :: ' ' :: jstrL kv.2

/-- A JSON object all of whose values are strings, with `json.dump`
separators. -/
def renderStrObj (pairs : List (String × String)) : List Char :=
  '{' :: (List.intercalate [',', ' '] (pairs.map renderPair) ++ ['}'])

/-- A one-key JSON object whose value is an array of string-valued
objects: the exact shape `json.dump` emits for a training entry. -/
def renderTop (key : String) (objs : List (List (String × String))) : List Char :=
  '{' :: (jstrL key ++ ':' :: ' ' :: '[' ::
    (List.intercalate [',', ' '] (objs.map renderStrObj) ++ [']', '}']))

/-- The key/value pairs of one message dict, in insertion order. -/
def messagePairs (m : Message) : List (String × String) :=
  [("role", m.role), ("content", m.content)]

/-- `json.dump(data_entry, f)` for one training entry. -/
def renderEntry (e : TrainingEntry) : List Char :=
  renderTop "messages" (e.messages.map messagePairs)

/-- The output line `json.dump` writes for one entry (without the
trailing newline added by `f.write("\n")`). -/
def entryLine (e : TrainingEntry) : String :=
  String.mk (renderEntry e)

/-! ### Parsing: `json.loads` restricted to the record grammar — a
one-key object holding an array of string-valued objects. Whitespace is
accepted around every token, strings with the full escape repertoire. -/

/-- Value of one hexadecimal digit character (either case). -/
def hexVal (c : Char) : Option Nat :=
  if 48 ≤ c.toNat ∧ c.toNat ≤ 57 then some (c.toNat - 48)
  else if 97 ≤ c.toNat ∧ c.toNat ≤ 102 then some (c.toNat - 87)
  else if 65 ≤ c.toNat ∧ c.toNat ≤ 70 then some (c.toNat - 55)
  else none

/-- The character a two-character escape `\e` denotes, if `e` is one of
the eight simple escapes. -/
def escCode (e : Char) : Option Char :=
  if e = '"' then some '"'
  else if e = '\\' then some '\\'
  else if e = '/' then some '/'
  else if e = 'b' then some (Char.ofNat 8)
  else if e = 'f' then some (Char.ofNat 12)
  else if e = 'n' then some '\n'
  else if e = 'r' then some '\r'
  else if e = 't' then some '\t'
  else none

/-- The character with codepoint `n` (an alias of `Char.ofNat` kept
opaque so that symbolic codepoint arithmetic does not unfold into the
validity test). -/
def mkChar (n : Nat) : Char := Char.ofNat n

attribute [irreducible] mkChar

/-- Combine a high surrogate `n` with a candidate low surrogate `m`
into the denoted scalar value, if `m` is indeed a low surrogate. -/
def surrogateJoin (n m : Nat) (r : List Char) : Option (Char × List Char) :=
  if 0xDC00 ≤ m ∧ m ≤ 0xDFFF then
    some (mkChar (0x10000 + (n - 0xD800) * 0x400 + (m - 0xDC00)), r)
  else none

/-- A non-high-surrogate escape value denotes itself, unless it is a
lone low surrogate (which denotes no scalar value). -/
def loneCheck (n : Nat) (r : List Char) : Option (Char × List Char) :=
  if 0xDC00 ≤ n ∧ n ≤ 0xDFFF then none
  else some (mkChar n, r)

/-- Decode the hex digits following a `\u` escape (the backslash and
`u` already consumed), combining a high surrogate with the following
`\uXXXX` low surrogate; lone surrogates are rejected (they denote no
scalar value). Returns the decoded character and the remaining input. -/
def decodeU : List Char → Option (Char × List Char)
  | h1 :: h2 :: h3 :: h4 :: r3 =>
    match hexVal h1, hexVal h2, hexVal h3, hexVal h4 with
    | some a, some b, some x, some d =>
      if 0xD800 ≤ ((a * 16 + b) * 16 + x) * 16 + d ∧
          ((a * 16 + b) * 16 + x) * 16 + d ≤ 0xDBFF then
        match r3 with
        | bs :: u :: g1 :: g2 :: g3 :: g4 :: r4 =>
          if bs = '\\' ∧ u = 'u' then
            match hexVal g1, hexVal g2, hexVal g3, hexVal g4 with
            | some a2, some b2, some x2, some d2 =>
              surrogateJoin (((a * 16 + b) * 16 + x) * 16 + d)
                (((a2 * 16 + b2) * 16 + x2) * 16 + d2) r4
            | _, _, _, _ => none
          else none
        | _ => none
      else loneCheck (((a * 16 + b) * 16 + x) * 16 + d) r3
    | _, _, _, _ => none
  | _ => none

set_option maxRecDepth 4096 in
/-- Decode a JSON string body up to (and consuming) the closing quote:
returns the decoded characters and the remaining input. -/
def parseJStrBody : List Char → Option (List Char × List Char)
  | [] => none
  | c :: rest =>
    if c = '"' then some ([], rest)
    else if c = '\\' then
      match rest with
      | [] => none
      | e :: r2 =>
        if e = 'u' then
          match hd : decodeU r2 with
          | none => none
          | some (ch, r3) => (parseJStrBody r3).map (fun p => (ch :: p.1, p.2))
        else
          match escCode e with
          | none => none
          | some ch => (parseJStrBody r2).map (fun p => (ch :: p.1, p.2))
    else (parseJStrBody rest).map (fun p => (c :: p.1, p.2))
termination_by l => l.length
decreasing_by
  · have hlen : r3.length < rest.length := by
      rcases rest with _ | ⟨a1, _ | ⟨a2, _ | ⟨a3, _ | ⟨a4, rr⟩⟩⟩⟩
      · exact absurd hd (by simp [decodeU])
      · exact absurd hd (by simp [decodeU])
      · exact absurd hd (by simp [decodeU])
      · exact absurd hd (by simp [decodeU])
      · simp only [decodeU] at hd
        split at hd
        next =>
          split at hd
          next =>
            split at hd
            next =>
              split at hd
              next =>
                split at hd
                next =>
                  simp only [surrogateJoin] at hd
                  split at hd
                  next =>
                    cases hd
                    simp only [List.length_cons]
                    omega
                  next => exact absurd hd (by simp)
                next => exact absurd hd (by simp)
              next => exact absurd hd (by simp)
            next => exact absurd hd (by simp)
          next =>
            simp only [loneCheck] at hd
            split at hd
            next => exact absurd hd (by simp)
            next =>
              cases hd
              simp only [List.length_cons]
              omega
        next => exact absurd hd (by simp)
    simp only [List.length_cons]
    omega
  · simp only [List.length_cons]
    omega
  · simp only [List.length_cons]
    omega

/-- Skip JSON insignificant whitespace. -/
def skipWs (l : List Char) : List Char :=
  l.dropWhile (fun c => c = ' ' || c = '\t' || c = '\n' || c = '\r')

/-- Require the next non-whitespace character to be `c`. -/
def expectChar (c : Char) (l : List Char) : Option (List Char) :=
  match skipWs l with
  | [] => none
  | d :: rest => if d = c then some rest else none

/-- Parse one JSON string token. -/
def parseJString (l : List Char) : Option (String × List Char) :=
  match skipWs l with
  | [] => none
  | d :: rest =>
    if d = '"' then (parseJStrBody rest).map (fun p => (String.mk p.1, p.2))
    else none

/-- Parse a two-field object with string values, `{KEY: STR, KEY: STR}`,
as every message object of the record grammar is. -/
def parseRCObj (l : List Char) : Option (List (String × String) × List Char) := do
  let r1 ← expectChar '{' l
  let (k1, r2) ← parseJString r1
  let r3 ← expectChar ':' r2
  let (v1, r4) ← parseJString r3
  let r5 ← expectChar ',' r4
  let (k2, r6) ← parseJString r5
  let r7 ← expectChar ':' r6
  let (v2, r8) ← parseJString r7
  let r9 ← expectChar '}' r8
  some ([(k1, v1), (k2, v2)], r9)

/-- Parse one output line of the record grammar: a one-key object whose
value is an array of exactly three two-field string-valued objects, with
nothing but whitespace after. Returns the top-level key and the three
objects as key/value pair lists. -/
def parseLine (s : String) : Option (String × List (List (String × String))) := do
  let r1 ← expectChar '{' s.data
  let (key, r2) ← parseJString r1
  let r3 ← expectChar ':' r2
  let r4 ← expectChar '[' r3
  let (o1, r5) ← parseRCObj r4
  let r6 ← expectChar ',' r5
  let (o2, r7) ← parseRCObj r6
  let r8 ← expectChar ',' r7
  let (o3, r9) ← parseRCObj r8
  let r10 ← expectChar ']' r9
  let r11 ← expectChar '}' r10
  match skipWs r11 with
  | [] => some (key, [o1, o2, o3])
  | _ => none

/-- Re-serialize a parsed line (top-level key plus the parsed objects)
with the same `json.dump` conventions. -/
def renderParsed (p : String × List (List (String × String))) : List Char :=
  renderTop p.1 p.2

/-- `main` after argument parsing: build the dataset, and only if that
succeeds open the output file and write one line per entry. `none` means
the run aborted with the build error and the output file was never
opened. The second component is the trace of external service calls. -/
def main_run (persona data_directory : String) (listdir : Option (List String))
    (readFile svc : String → Option String) :
    Option (List String) × List String :=
  match build persona data_directory listdir readFile svc with
  | (Except.error _, t) => (none, t)
  | (Except.ok entries, t) => (some (entries.map entryLine), t)

/-- The entry a given directory entry name yields when its processing
succeeds (placeholder entry otherwise; only used under a success
hypothesis). -/
def entryOfName (persona data_directory : String)
    (readFile svc : String → Option String) (n : String) : TrainingEntry :=
  match (process_text_file persona readFile svc
      (os_path_join data_directory n)).1 with
  | Except.ok e => e
  | Except.error _ => ⟨[]⟩

end PrepareFineTune

namespace PrepareFineTune

/-! ### Basic lemmas about one file's processing -/

theorem process_text_file_ok (persona : String)
    (readFile svc : String → Option String) (path R raw : String)
    (hr : readFile path = some R) (hs : svc R = some raw) :
    process_text_file persona readFile svc path =
      (Except.ok ⟨[⟨"system", persona⟩, ⟨"user", pyStrip raw⟩,
                   ⟨"assistant", R⟩]⟩, [R]) := by
  simp [process_text_file, generate_simulated_query, hr, hs]

theorem process_text_file_read_fail (persona : String)
    (readFile svc : String → Option String) (path : String)
    (hr : readFile path = none) :
    process_text_file persona readFile svc path =
      (Except.error BuildError.FileReadError, []) := by
  simp [process_text_file, hr]

theorem process_text_file_svc_fail (persona : String)
    (readFile svc : String → Option String) (path R : String)
    (hr : readFile path = some R) (hs : svc R = none) :
    process_text_file persona readFile svc path =
      (Except.error BuildError.ExternalServiceError, [R]) := by
  simp [process_text_file, generate_simulated_query, hr, hs]

/-- If every character of a string is Python whitespace, `strip` yields
the empty string. -/
theorem pyStrip_of_all_space (raw : String)
    (h : ∀ c ∈ raw.data, pyIsSpace c = true) : pyStrip raw = "" := by
  have hd : raw.data.dropWhile pyIsSpace = [] := by
    rw [List.dropWhile_eq_nil_iff]
    exact h
  simp [pyStrip, pyStripList, hd]

/-! ### Claim theorems: per-file behaviour -/

/-- C1 counterexample: with one qualifying file whose content is
`"doc"` and a service that returns the whitespace-only string `"  "`,
the build does not abort: it succeeds and produces a record whose user
message is empty, so the claimed `ExternalServiceError` does not occur. -/
theorem c1_whitespace_response_not_error :
    build "P" "d" (some ["a.txt"])
        (fun p => if p = "d/a.txt" then some "doc" else none)
        (fun _ => some "  ") =
      (Except.ok [⟨[⟨"system", "P"⟩, ⟨"user", ""⟩, ⟨"assistant", "doc"⟩]⟩],
        ["doc"]) ∧
    (build "P" "d" (some ["a.txt"])
        (fun p => if p = "d/a.txt" then some "doc" else none)
        (fun _ => some "  ")).1 ≠
      Except.error BuildError.ExternalServiceError := by
  refine ⟨rfl, ?_⟩
  intro h
  rw [show (build "P" "d" (some ["a.txt"])
      (fun p => if p = "d/a.txt" then some "doc" else none)
      (fun _ => some "  ")).1 =
      Except.ok [⟨[⟨"system", "P"⟩, ⟨"user", ""⟩, ⟨"assistant", "doc"⟩]⟩]
    from rfl] at h
  exact Except.noConfusion h

/-- C1 (amended): a whitespace-only (or empty) successful service
response does not abort the run; the returned text is trimmed to the
empty string and the record is assembled with an empty user query. -/
theorem c1_amended_empty_query_accepted (persona : String)
    (readFile svc : String → Option String) (path R raw : String)
    (hr : readFile path = some R) (hs : svc R = some raw)
    (hw : ∀ c ∈ raw.data, pyIsSpace c = true) :
    process_text_file persona readFile svc path =
      (Except.ok ⟨[⟨"system", persona⟩, ⟨"user", ""⟩,
                   ⟨"assistant", R⟩]⟩, [R]) := by
  rw [process_text_file_ok persona readFile svc path R raw hr hs,
    pyStrip_of_all_space raw hw]

theorem c1_amended_empty_query_accepted_witness :
    ((fun p => if p = "d/a.txt" then some "doc" else none : String → Option String)
        "d/a.txt" = some "doc") ∧
    ((fun _ => some " \t " : String → Option String) "doc" = some " \t ") ∧
    process_text_file "P"
        (fun p => if p = "d/a.txt" then some "doc" else none)
        (fun _ => some " \t ") "d/a.txt" =
      (Except.ok ⟨[⟨"system", "P"⟩, ⟨"user", ""⟩,
                   ⟨"assistant", "doc"⟩]⟩, ["doc"]) :=
  ⟨rfl, rfl,
    c1_amended_empty_query_accepted "P"
      (fun p => if p = "d/a.txt" then some "doc" else none)
      (fun _ => some " \t ") "d/a.txt" "doc" " \t " (by decide) rfl
      (by decide)⟩

/-- C2: whenever the file read and the service call succeed, the
assembled entry has exactly three messages, in the fixed order system,
user, assistant, with the system content equal to the persona and the
assistant content equal to the file content unchanged. -/
theorem c2_record_shape (persona : String)
    (readFile svc : String → Option String) (path R raw : String)
    (hr : readFile path = some R) (hs : svc R = some raw) :
    process_text_file persona readFile svc path =
      (Except.ok ⟨[⟨"system", persona⟩, ⟨"user", pyStrip raw⟩,
                   ⟨"assistant", R⟩]⟩, [R]) ∧
    ((⟨[⟨"system", persona⟩, ⟨"user", pyStrip raw⟩,
        ⟨"assistant", R⟩]⟩ : TrainingEntry).messages.map Message.role =
      ["system", "user", "assistant"]) :=
  ⟨process_text_file_ok persona readFile svc path R raw hr hs, rfl⟩

theorem c2_record_shape_witness :
    ((fun p => if p = "d/a.txt" then some "Hello world" else none :
        String → Option String) "d/a.txt" = some "Hello world") ∧
    ((fun _ => some " What should I say? " : String → Option String)
        "Hello world" = some " What should I say? ") ∧
    (process_text_file "You are Bob."
        (fun p => if p = "d/a.txt" then some "Hello world" else none)
        (fun _ => some " What should I say? ") "d/a.txt" =
      (Except.ok ⟨[⟨"system", "You are Bob."⟩,
                   ⟨"user", pyStrip " What should I say? "⟩,
                   ⟨"assistant", "Hello world"⟩]⟩, ["Hello world"]) ∧
      ((⟨[⟨"system", "You are Bob."⟩,
          ⟨"user", pyStrip " What should I say? "⟩,
          ⟨"assistant", "Hello world"⟩]⟩ : TrainingEntry).messages.map
          Message.role = ["system", "user", "assistant"])) :=
  ⟨rfl, rfl,
    c2_record_shape "You are Bob."
      (fun p => if p = "d/a.txt" then some "Hello world" else none)
      (fun _ => some " What should I say? ") "d/a.txt" "Hello world"
      " What should I say? " (by decide) rfl⟩

/-! ### Lemmas about the processing loop -/

theorem gen_cons_skip (persona d : String) (rf svc : String → Option String)
    (n : String) (rest : List String) (h : py_endswith n ".txt" = false) :
    generate_training_data persona d rf svc (n :: rest) =
      generate_training_data persona d rf svc rest := by
  simp [generate_training_data, h]

/-- Running the loop over only the qualifying names gives the same
result (records and service-call trace) as running it over all names:
non-`.txt` entries contribute nothing at all. -/
theorem gen_filter_eq (persona d : String) (rf svc : String → Option String)
    (names : List String) :
    generate_training_data persona d rf svc
        (names.filter (fun n => py_endswith n ".txt")) =
      generate_training_data persona d rf svc names := by
  induction names with
  | nil => rfl
  | cons n rest ih =>
    by_cases h : py_endswith n ".txt" = true
    · rw [List.filter_cons_of_pos (p := fun m => py_endswith m ".txt") h]
      simp only [generate_training_data, h, if_true]
      rw [ih]
    · rw [List.filter_cons_of_neg (p := fun m => py_endswith m ".txt") h, ih,
        gen_cons_skip persona d rf svc n rest (Bool.eq_false_iff.mpr h)]

/-- If every qualifying name of a prefix processes successfully and the
loop over the remainder raises, the loop over the whole list raises the
same error. -/
theorem gen_append_error (persona d : String) (rf svc : String → Option String)
    (l1 l2 : List String) (e : BuildError)
    (hok : ∀ n ∈ l1, py_endswith n ".txt" = true →
      (process_text_file persona rf svc (os_path_join d n)).1 =
        Except.ok (entryOfName persona d rf svc n))
    (he : (generate_training_data persona d rf svc l2).1 = Except.error e) :
    (generate_training_data persona d rf svc (l1 ++ l2)).1 = Except.error e := by
  induction l1 with
  | nil => simpa using he
  | cons n rest ih =>
    have hrest := ih (fun m hm hq => hok m (List.mem_cons_of_mem _ hm) hq)
    by_cases h : py_endswith n ".txt" = true
    · have hp := hok n (List.mem_cons_self _ _) h
      rcases hproc : process_text_file persona rf svc (os_path_join d n)
        with ⟨res, t⟩
      rw [hproc] at hp
      simp only at hp
      subst hp
      simp only [List.cons_append, generate_training_data, h, if_true, hproc]
      rcases hg : generate_training_data persona d rf svc (rest ++ l2)
        with ⟨res2, t2⟩
      rw [hg] at hrest
      simp only at hrest
      subst hrest
      rfl
    · rw [List.cons_append, gen_cons_skip persona d rf svc n (rest ++ l2)
        (Bool.eq_false_iff.mpr h)]
      exact hrest

/-- If every qualifying name processes successfully, the loop returns
one entry per qualifying name, in enumeration order. -/
theorem gen_all_ok (persona d : String) (rf svc : String → Option String)
    (names : List String)
    (hok : ∀ n ∈ names, py_endswith n ".txt" = true →
      (process_text_file persona rf svc (os_path_join d n)).1 =
        Except.ok (entryOfName persona d rf svc n)) :
    (generate_training_data persona d rf svc names).1 =
      Except.ok ((names.filter (fun n => py_endswith n ".txt")).map
        (entryOfName persona d rf svc)) := by
  induction names with
  | nil => rfl
  | cons n rest ih =>
    have hrest := ih (fun m hm hq => hok m (List.mem_cons_of_mem _ hm) hq)
    by_cases h : py_endswith n ".txt" = true
    · have hp := hok n (List.mem_cons_self _ _) h
      rcases hproc : process_text_file persona rf svc (os_path_join d n)
        with ⟨res, t⟩
      rw [hproc] at hp
      simp only at hp
      subst hp
      simp only [generate_training_data, h, if_true, hproc]
      rcases hg : generate_training_data persona d rf svc rest with ⟨res2, t2⟩
      rw [hg] at hrest
      simp only at hrest
      subst hrest
      rw [List.filter_cons_of_pos (p := fun m => py_endswith m ".txt") h, List.map_cons]
    · rw [gen_cons_skip persona d rf svc n rest (Bool.eq_false_iff.mpr h),
        List.filter_cons_of_neg (p := fun m => py_endswith m ".txt") h]
      exact hrest

/-! ### Claim theorems: the whole run -/

/-- C3: with no mid-run failure, the build returns exactly one entry per
qualifying `.txt` name, in enumeration order, and the output has exactly
one line per qualifying name (in the same order). -/
theorem c3_one_line_per_txt_file (persona d : String)
    (rf svc : String → Option String) (names : List String)
    (hok : ∀ n ∈ names, py_endswith n ".txt" = true →
      (process_text_file persona rf svc (os_path_join d n)).1 =
        Except.ok (entryOfName persona d rf svc n)) :
    (build persona d (some names) rf svc).1 =
      Except.ok ((names.filter (fun n => py_endswith n ".txt")).map
        (entryOfName persona d rf svc)) ∧
    (main_run persona d (some names) rf svc).1 =
      some (((names.filter (fun n => py_endswith n ".txt")).map
        (entryOfName persona d rf svc)).map entryLine) ∧
    (((names.filter (fun n => py_endswith n ".txt")).map
        (entryOfName persona d rf svc)).map entryLine).length =
      (names.filter (fun n => py_endswith n ".txt")).length := by
  have hb : (build persona d (some names) rf svc).1 =
      Except.ok ((names.filter (fun n => py_endswith n ".txt")).map
        (entryOfName persona d rf svc)) :=
    gen_all_ok persona d rf svc names hok
  refine ⟨hb, ?_, by simp⟩
  unfold main_run
  rcases hbuild : build persona d (some names) rf svc with ⟨res, t⟩
  rw [hbuild] at hb
  simp only at hb
  subst hb
  rfl

theorem c3_one_line_per_txt_file_witness :
    (∀ n ∈ ["a.txt", "b.md"], py_endswith n ".txt" = true →
      (process_text_file "P"
          (fun p => if p = "d/a.txt" then some "doc" else none)
          (fun q => if q = "doc" then some " Q " else none)
          (os_path_join "d" n)).1 =
        Except.ok (entryOfName "P" "d"
          (fun p => if p = "d/a.txt" then some "doc" else none)
          (fun q => if q = "doc" then some " Q " else none) n)) ∧
    ((build "P" "d" (some ["a.txt", "b.md"])
        (fun p => if p = "d/a.txt" then some "doc" else none)
        (fun q => if q = "doc" then some " Q " else none)).1 =
      Except.ok ((["a.txt", "b.md"].filter
          (fun n => py_endswith n ".txt")).map
        (entryOfName "P" "d"
          (fun p => if p = "d/a.txt" then some "doc" else none)
          (fun q => if q = "doc" then some " Q " else none))) ∧
    (main_run "P" "d" (some ["a.txt", "b.md"])
        (fun p => if p = "d/a.txt" then some "doc" else none)
        (fun q => if q = "doc" then some " Q " else none)).1 =
      some (((["a.txt", "b.md"].filter
          (fun n => py_endswith n ".txt")).map
        (entryOfName "P" "d"
          (fun p => if p = "d/a.txt" then some "doc" else none)
          (fun q => if q = "doc" then some " Q " else none))).map entryLine) ∧
    (((["a.txt", "b.md"].filter
        (fun n => py_endswith n ".txt")).map
      (entryOfName "P" "d"
        (fun p => if p = "d/a.txt" then some "doc" else none)
        (fun q => if q = "doc" then some " Q " else none))).map
        entryLine).length =
      (["a.txt", "b.md"].filter (fun n => py_endswith n ".txt")).length) :=
  ⟨by decide,
    c3_one_line_per_txt_file "P" "d"
      (fun p => if p = "d/a.txt" then some "doc" else none)
      (fun q => if q = "doc" then some " Q " else none)
      ["a.txt", "b.md"] (by decide)⟩

/-- Core fail-fast fact shared by the error-path claims: if the
qualifying names split as `l1 ++ bad :: l2` with every name of `l1`
processing successfully and `bad` failing, the build aborts with that
error and no output is produced. -/
theorem build_error_of_split (persona d : String)
    (rf svc : String → Option String) (names l1 l2 : List String)
    (bad : String) (e : BuildError)
    (hsplit : names.filter (fun n => py_endswith n ".txt") = l1 ++ bad :: l2)
    (hok : ∀ n ∈ l1, py_endswith n ".txt" = true →
      (process_text_file persona rf svc (os_path_join d n)).1 =
        Except.ok (entryOfName persona d rf svc n))
    (hbad : (process_text_file persona rf svc (os_path_join d bad)).1 =
      Except.error e) :
    (build persona d (some names) rf svc).1 = Except.error e ∧
    (main_run persona d (some names) rf svc).1 = none := by
  have hqbad : py_endswith bad ".txt" = true := by
    have : bad ∈ names.filter (fun n => py_endswith n ".txt") := by
      rw [hsplit]
      exact List.mem_append_right l1 (List.mem_cons_self _ _)
    exact List.of_mem_filter (p := fun m => py_endswith m ".txt") this
  have htail : (generate_training_data persona d rf svc (bad :: l2)).1 =
      Except.error e := by
    simp only [generate_training_data, hqbad, if_true]
    rcases hproc : process_text_file persona rf svc (os_path_join d bad)
      with ⟨res, t⟩
    rw [hproc] at hbad
    simp only at hbad
    subst hbad
    rfl
  have hb : (build persona d (some names) rf svc).1 = Except.error e := by
    show (generate_training_data persona d rf svc names).1 = Except.error e
    rw [← gen_filter_eq persona d rf svc names, hsplit]
    exact gen_append_error persona d rf svc l1 (bad :: l2) e hok htail
  refine ⟨hb, ?_⟩
  unfold main_run
  rcases hbuild : build persona d (some names) rf svc with ⟨res, t⟩
  rw [hbuild] at hb
  simp only at hb
  subst hb
  rfl

/-- C6: selection is by name suffix only: the run over all directory
entries equals the run over just the entries whose name ends in
`".txt"`, so every other entry contributes no record, no service call
and no output line, regardless of its content. -/
theorem c6_non_txt_excluded (persona d : String)
    (rf svc : String → Option String) (names : List String) :
    build persona d (some names) rf svc =
      build persona d
        (some (names.filter (fun n => py_endswith n ".txt"))) rf svc ∧
    main_run persona d (some names) rf svc =
      main_run persona d
        (some (names.filter (fun n => py_endswith n ".txt"))) rf svc := by
  have hb : build persona d (some names) rf svc =
      build persona d
        (some (names.filter (fun n => py_endswith n ".txt"))) rf svc := by
    show generate_training_data persona d rf svc names =
      generate_training_data persona d rf svc
        (names.filter (fun n => py_endswith n ".txt"))
    rw [gen_filter_eq]
  exact ⟨hb, by unfold main_run; rw [hb]⟩

/-- C9: the `.txt` filter looks only at the name: a qualifying entry
whose path cannot be opened and decoded (for example a subdirectory
named `*.txt`, or invalid UTF-8) is still selected, and the run aborts
with the read error rather than skipping it. -/
theorem c9_unreadable_txt_selected_aborts (persona d : String)
    (rf svc : String → Option String) (names l1 l2 : List String)
    (bad : String)
    (hsplit : names.filter (fun n => py_endswith n ".txt") = l1 ++ bad :: l2)
    (hok : ∀ n ∈ l1, py_endswith n ".txt" = true →
      (process_text_file persona rf svc (os_path_join d n)).1 =
        Except.ok (entryOfName persona d rf svc n))
    (hread : rf (os_path_join d bad) = none) :
    bad ∈ names.filter (fun n => py_endswith n ".txt") ∧
    (build persona d (some names) rf svc).1 =
      Except.error BuildError.FileReadError ∧
    (main_run persona d (some names) rf svc).1 = none := by
  have hmem : bad ∈ names.filter (fun n => py_endswith n ".txt") := by
    rw [hsplit]
    exact List.mem_append_right l1 (List.mem_cons_self _ _)
  have hbad : (process_text_file persona rf svc (os_path_join d bad)).1 =
      Except.error BuildError.FileReadError := by
    rw [process_text_file_read_fail persona rf svc _ hread]
  obtain ⟨h1, h2⟩ := build_error_of_split persona d rf svc names l1
    l2 bad BuildError.FileReadError hsplit hok hbad
  exact ⟨hmem, h1, h2⟩

/-- C4: if some qualifying file fails (read error or external-service
error) while all earlier qualifying files succeed, the whole run aborts
with that error and nothing — in particular none of the records already
computed for earlier files — is written: the output file is never
opened. -/
theorem c4_fail_fast_no_partial_output (persona d : String)
    (rf svc : String → Option String) (names l1 l2 : List String)
    (bad : String) (e : BuildError)
    (hsplit : names.filter (fun n => py_endswith n ".txt") = l1 ++ bad :: l2)
    (hok : ∀ n ∈ l1, py_endswith n ".txt" = true →
      (process_text_file persona rf svc (os_path_join d n)).1 =
        Except.ok (entryOfName persona d rf svc n))
    (hbad : (process_text_file persona rf svc (os_path_join d bad)).1 =
      Except.error e) :
    (build persona d (some names) rf svc).1 = Except.error e ∧
    (main_run persona d (some names) rf svc).1 = none :=
  build_error_of_split persona d rf svc names l1 l2 bad e hsplit hok hbad

theorem c4_fail_fast_no_partial_output_witness :
    (["a.txt", "bad.txt"].filter (fun n => py_endswith n ".txt") =
      ["a.txt"] ++ "bad.txt" :: []) ∧
    (∀ n ∈ ["a.txt"], py_endswith n ".txt" = true →
      (process_text_file "P"
          (fun p => if p = "d/a.txt" then some "doc" else none)
          (fun q => if q = "doc" then some " Q " else none)
          (os_path_join "d" n)).1 =
        Except.ok (entryOfName "P" "d"
          (fun p => if p = "d/a.txt" then some "doc" else none)
          (fun q => if q = "doc" then some " Q " else none) n)) ∧
    ((process_text_file "P"
        (fun p => if p = "d/a.txt" then some "doc" else none)
        (fun q => if q = "doc" then some " Q " else none)
        (os_path_join "d" "bad.txt")).1 =
      Except.error BuildError.FileReadError) ∧
    ((build "P" "d" (some ["a.txt", "bad.txt"])
        (fun p => if p = "d/a.txt" then some "doc" else none)
        (fun q => if q = "doc" then some " Q " else none)).1 =
      Except.error BuildError.FileReadError ∧
    (main_run "P" "d" (some ["a.txt", "bad.txt"])
        (fun p => if p = "d/a.txt" then some "doc" else none)
        (fun q => if q = "doc" then some " Q " else none)).1 = none) :=
  ⟨by decide, by decide, by decide,
    c4_fail_fast_no_partial_output "P" "d"
      (fun p => if p = "d/a.txt" then some "doc" else none)
      (fun q => if q = "doc" then some " Q " else none)
      ["a.txt", "bad.txt"] ["a.txt"] [] "bad.txt" BuildError.FileReadError
      (by decide) (by decide) (by decide)⟩

theorem c9_unreadable_txt_selected_aborts_witness :
    (["a.txt", "sub.txt"].filter (fun n => py_endswith n ".txt") =
      ["a.txt"] ++ "sub.txt" :: []) ∧
    (∀ n ∈ ["a.txt"], py_endswith n ".txt" = true →
      (process_text_file "P"
          (fun p => if p = "d/a.txt" then some "doc" else none)
          (fun q => if q = "doc" then some " Q " else none)
          (os_path_join "d" n)).1 =
        Except.ok (entryOfName "P" "d"
          (fun p => if p = "d/a.txt" then some "doc" else none)
          (fun q => if q = "doc" then some " Q " else none) n)) ∧
    ((fun p => if p = "d/a.txt" then some "doc" else none : String → Option String)
        (os_path_join "d" "sub.txt") = none) ∧
    ("sub.txt" ∈ ["a.txt", "sub.txt"].filter (fun n => py_endswith n ".txt") ∧
    (build "P" "d" (some ["a.txt", "sub.txt"])
        (fun p => if p = "d/a.txt" then some "doc" else none)
        (fun q => if q = "doc" then some " Q " else none)).1 =
      Except.error BuildError.FileReadError ∧
    (main_run "P" "d" (some ["a.txt", "sub.txt"])
        (fun p => if p = "d/a.txt" then some "doc" else none)
        (fun q => if q = "doc" then some " Q " else none)).1 = none) :=
  ⟨by decide, by decide, by decide,
    c9_unreadable_txt_selected_aborts "P" "d"
      (fun p => if p = "d/a.txt" then some "doc" else none)
      (fun q => if q = "doc" then some " Q " else none)
      ["a.txt", "sub.txt"] ["a.txt"] [] "sub.txt"
      (by decide) (by decide) (by decide)⟩

/-- The loop result (records and trace) depends only on the persona,
the enumerated names, the read results at the qualifying paths, and the
service responses at the contents actually read. -/
theorem gen_congr (persona d : String)
    (rf1 rf2 svc1 svc2 : String → Option String) :
    ∀ names : List String,
    (∀ n ∈ names, py_endswith n ".txt" = true →
      rf1 (os_path_join d n) = rf2 (os_path_join d n)) →
    (∀ n ∈ names, py_endswith n ".txt" = true → ∀ s,
      rf1 (os_path_join d n) = some s → svc1 s = svc2 s) →
    generate_training_data persona d rf1 svc1 names =
      generate_training_data persona d rf2 svc2 names
  | [], _, _ => rfl
  | n :: rest, hrf, hsvc => by
    have htail := gen_congr persona d rf1 rf2 svc1 svc2 rest
      (fun m hm hq => hrf m (List.mem_cons_of_mem _ hm) hq)
      (fun m hm hq s hsm => hsvc m (List.mem_cons_of_mem _ hm) hq s hsm)
    by_cases h : py_endswith n ".txt" = true
    · have hrn := hrf n (List.mem_cons_self _ _) h
      have hproc : process_text_file persona rf1 svc1 (os_path_join d n) =
          process_text_file persona rf2 svc2 (os_path_join d n) := by
        unfold process_text_file
        rw [hrn]
        cases hs : rf2 (os_path_join d n) with
        | none => rfl
        | some s =>
          have hsv := hsvc n (List.mem_cons_self _ _) h s (hrn.trans hs)
          simp [generate_simulated_query, hsv]
      simp only [generate_training_data, h, if_true, hproc, htail]
    · rw [gen_cons_skip persona d rf1 svc1 n rest (Bool.eq_false_iff.mpr h),
        gen_cons_skip persona d rf2 svc2 n rest (Bool.eq_false_iff.mpr h)]
      exact htail

/-- C10: the run is deterministic in its inputs: two runs with the same
persona, the same enumerated names, the same contents for the
qualifying files, and the same service response for each content sent,
produce identical results — dataset, service-call trace and output
lines. Nothing else (other paths, other service inputs) can influence
the output. -/
theorem c10_deterministic (persona d : String) (names : List String)
    (rf1 rf2 svc1 svc2 : String → Option String)
    (hrf : ∀ n ∈ names, py_endswith n ".txt" = true →
      rf1 (os_path_join d n) = rf2 (os_path_join d n))
    (hsvc : ∀ n ∈ names, py_endswith n ".txt" = true → ∀ s,
      rf1 (os_path_join d n) = some s → svc1 s = svc2 s) :
    build persona d (some names) rf1 svc1 =
      build persona d (some names) rf2 svc2 ∧
    main_run persona d (some names) rf1 svc1 =
      main_run persona d (some names) rf2 svc2 := by
  have hb : build persona d (some names) rf1 svc1 =
      build persona d (some names) rf2 svc2 :=
    gen_congr persona d rf1 rf2 svc1 svc2 names hrf hsvc
  exact ⟨hb, by unfold main_run; rw [hb]⟩

theorem c10_deterministic_witness :
    (∀ n ∈ ["a.txt", "b.md"], py_endswith n ".txt" = true →
      (fun p => if p = "d/a.txt" then some "doc" else none : String → Option String)
          (os_path_join "d" n) =
        (fun p => if p = "d/a.txt" then some "doc" else some "junk" :
          String → Option String) (os_path_join "d" n)) ∧
    (∀ n ∈ ["a.txt", "b.md"], py_endswith n ".txt" = true → ∀ s,
      (fun p => if p = "d/a.txt" then some "doc" else none : String → Option String)
          (os_path_join "d" n) = some s →
        (fun q => if q = "doc" then some " Q " else none : String → Option String) s =
        (fun q => if q = "doc" then some " Q " else some "noise" :
          String → Option String) s) ∧
    (build "P" "d" (some ["a.txt", "b.md"])
        (fun p => if p = "d/a.txt" then some "doc" else none)
        (fun q => if q = "doc" then some " Q " else none) =
      build "P" "d" (some ["a.txt", "b.md"])
        (fun p => if p = "d/a.txt" then some "doc" else some "junk")
        (fun q => if q = "doc" then some " Q " else some "noise") ∧
      main_run "P" "d" (some ["a.txt", "b.md"])
        (fun p => if p = "d/a.txt" then some "doc" else none)
        (fun q => if q = "doc" then some " Q " else none) =
      main_run "P" "d" (some ["a.txt", "b.md"])
        (fun p => if p = "d/a.txt" then some "doc" else some "junk")
        (fun q => if q = "doc" then some " Q " else some "noise")) :=
  ⟨by decide, by decide,
    c10_deterministic "P" "d" ["a.txt", "b.md"]
      (fun p => if p = "d/a.txt" then some "doc" else none)
      (fun p => if p = "d/a.txt" then some "doc" else some "junk")
      (fun q => if q = "doc" then some " Q " else none)
      (fun q => if q = "doc" then some " Q " else some "noise")
      (by decide) (by decide)⟩

/-! ### Lemmas about stripping -/

theorem head_dropWhile_false {α : Type} (p : α → Bool) :
    ∀ (l : List α) (c : α), (l.dropWhile p).head? = some c → p c = false
  | [], c => by intro h; simp [List.dropWhile] at h
  | a :: l, c => by
    intro h
    by_cases ha : p a = true
    · rw [List.dropWhile_cons_of_pos ha] at h
      exact head_dropWhile_false p l c h
    · rw [List.dropWhile_cons_of_neg ha] at h
      simp only [List.head?_cons, Option.some.injEq] at h
      rw [← h]
      exact Bool.eq_false_iff.mpr ha

/-- The strip result sits inside the original list between two runs of
whitespace. -/
theorem pyStripList_decomp (l : List Char) :
    l = l.takeWhile pyIsSpace ++ pyStripList l ++
      ((l.dropWhile pyIsSpace).reverse.takeWhile pyIsSpace).reverse := by
  rw [List.append_assoc]
  conv_lhs => rw [← List.takeWhile_append_dropWhile (p := pyIsSpace) (l := l)]
  congr 1
  calc l.dropWhile pyIsSpace
      = (l.dropWhile pyIsSpace).reverse.reverse := by rw [List.reverse_reverse]
    _ = ((l.dropWhile pyIsSpace).reverse.takeWhile pyIsSpace ++
          (l.dropWhile pyIsSpace).reverse.dropWhile pyIsSpace).reverse := by
        rw [List.takeWhile_append_dropWhile]
    _ = pyStripList l ++
          ((l.dropWhile pyIsSpace).reverse.takeWhile pyIsSpace).reverse := by
        rw [List.reverse_append]
        rfl

/-- The strip result does not start with whitespace. -/
theorem pyStripList_head (l : List Char) (c : Char)
    (h : (pyStripList l).head? = some c) : pyIsSpace c = false := by
  have h1 : ((l.dropWhile pyIsSpace).reverse.dropWhile pyIsSpace).getLast? =
      some c := by
    rw [← List.head?_reverse]
    exact h
  have h2 : ((l.dropWhile pyIsSpace).reverse.takeWhile pyIsSpace ++
      (l.dropWhile pyIsSpace).reverse.dropWhile pyIsSpace).getLast? = some c := by
    rw [List.getLast?_append, h1]
    rfl
  rw [List.takeWhile_append_dropWhile, List.getLast?_reverse] at h2
  exact head_dropWhile_false pyIsSpace _ c h2

/-- The strip result does not end with whitespace. -/
theorem pyStripList_getLast (l : List Char) (c : Char)
    (h : (pyStripList l).getLast? = some c) : pyIsSpace c = false := by
  rw [pyStripList, List.getLast?_reverse] at h
  exact head_dropWhile_false pyIsSpace _ c h

/-- C5: when the read and the service call succeed, the user message of
the assembled record is exactly the service text with leading and
trailing whitespace removed: the original text is a whitespace run, then
the user text, then a whitespace run, and the user text neither starts
nor ends with whitespace. -/
theorem c5_user_query_is_stripped (persona : String)
    (rf svc : String → Option String) (path R raw : String)
    (hr : rf path = some R) (hs : svc R = some raw) :
    process_text_file persona rf svc path =
      (Except.ok ⟨[⟨"system", persona⟩, ⟨"user", pyStrip raw⟩,
                   ⟨"assistant", R⟩]⟩, [R]) ∧
    (∃ pre suf : List Char, pre.all pyIsSpace = true ∧
      suf.all pyIsSpace = true ∧
      raw.data = pre ++ (pyStrip raw).data ++ suf) ∧
    (∀ c : Char, (pyStrip raw).data.head? = some c → pyIsSpace c = false) ∧
    (∀ c : Char, (pyStrip raw).data.getLast? = some c → pyIsSpace c = false) := by
  refine ⟨process_text_file_ok persona rf svc path R raw hr hs, ?_, ?_, ?_⟩
  · refine ⟨raw.data.takeWhile pyIsSpace,
      ((raw.data.dropWhile pyIsSpace).reverse.takeWhile pyIsSpace).reverse,
      ?_, ?_, ?_⟩
    · exact List.all_eq_true.mpr fun x hx => List.mem_takeWhile_imp hx
    · refine List.all_eq_true.mpr fun x hx => ?_
      rw [List.mem_reverse] at hx
      exact List.mem_takeWhile_imp hx
    · exact pyStripList_decomp raw.data
  · exact fun c hc => pyStripList_head raw.data c hc
  · exact fun c hc => pyStripList_getLast raw.data c hc

theorem c5_user_query_is_stripped_witness :
    ((fun p => if p = "d/a.txt" then some "doc" else none : String → Option String)
        "d/a.txt" = some "doc") ∧
    ((fun _ => some " What should I say? " : String → Option String) "doc" =
      some " What should I say? ") ∧
    (process_text_file "You are Bob."
        (fun p => if p = "d/a.txt" then some "doc" else none)
        (fun _ => some " What should I say? ") "d/a.txt" =
      (Except.ok ⟨[⟨"system", "You are Bob."⟩,
                   ⟨"user", pyStrip " What should I say? "⟩,
                   ⟨"assistant", "doc"⟩]⟩, ["doc"]) ∧
    (∃ pre suf : List Char, pre.all pyIsSpace = true ∧
      suf.all pyIsSpace = true ∧
      (" What should I say? " : String).data =
        pre ++ (pyStrip " What should I say? ").data ++ suf) ∧
    (∀ c : Char, (pyStrip " What should I say? ").data.head? = some c →
      pyIsSpace c = false) ∧
    (∀ c : Char, (pyStrip " What should I say? ").data.getLast? = some c →
      pyIsSpace c = false)) :=
  ⟨rfl, rfl,
    c5_user_query_is_stripped "You are Bob."
      (fun p => if p = "d/a.txt" then some "doc" else none)
      (fun _ => some " What should I say? ") "d/a.txt" "doc"
      " What should I say? " (by decide) rfl⟩

/-- C7: when `os.listdir` fails (missing or non-directory input path),
the run aborts with the filesystem error, no external service call has
been made, and no output is produced. -/
theorem c7_bad_directory_fails_first (persona data_directory : String)
    (readFile svc : String → Option String) :
    build persona data_directory none readFile svc =
      (Except.error BuildError.FilesystemError, []) ∧
    main_run persona data_directory none readFile svc = (none, []) :=
  ⟨rfl, rfl⟩


/-! ### Round trip of the string escaping -/

theorem hexVal_hexDigitChar : ∀ k : Nat, k < 16 → hexVal (hexDigitChar k) = some k := by
  decide

theorem hexRecompose (m : Nat) (hm : m < 0x10000) :
    (((m / 4096 % 16) * 16 + m / 256 % 16) * 16 + m / 16 % 16) * 16 + m % 16 = m := by
  omega

/-- The character a two-character escape `\e` denotes, if `e` is one of
the eight simple escapes. -/

theorem decodeU_cons_scalar (a b x d : Nat) (c3 c2 c1 c0 : Char)
    (tail : List Char)
    (he3 : hexVal c3 = some a) (he2 : hexVal c2 = some b)
    (he1 : hexVal c1 = some x) (he0 : hexVal c0 = some d)
    (hns : ((a * 16 + b) * 16 + x) * 16 + d < 0xD800 ∨
      0xDFFF < ((a * 16 + b) * 16 + x) * 16 + d) :
    decodeU (c3 :: c2 :: c1 :: c0 :: tail) =
      some (mkChar (((a * 16 + b) * 16 + x) * 16 + d), tail) := by
  simp only [decodeU, he3, he2, he1, he0]
  rw [if_neg (by omega), loneCheck, if_neg (by omega)]

theorem decodeU_cons_pair (a b x d a2 b2 x2 d2 : Nat)
    (c3 c2 c1 c0 k3 k2 k1 k0 : Char) (tail : List Char)
    (he3 : hexVal c3 = some a) (he2 : hexVal c2 = some b)
    (he1 : hexVal c1 = some x) (he0 : hexVal c0 = some d)
    (hf3 : hexVal k3 = some a2) (hf2 : hexVal k2 = some b2)
    (hf1 : hexVal k1 = some x2) (hf0 : hexVal k0 = some d2)
    (hhi : 0xD800 ≤ ((a * 16 + b) * 16 + x) * 16 + d ∧
      ((a * 16 + b) * 16 + x) * 16 + d ≤ 0xDBFF)
    (hlo : 0xDC00 ≤ ((a2 * 16 + b2) * 16 + x2) * 16 + d2 ∧
      ((a2 * 16 + b2) * 16 + x2) * 16 + d2 ≤ 0xDFFF) :
    decodeU (c3 :: c2 :: c1 :: c0 :: '\\' :: 'u' ::
        k3 :: k2 :: k1 :: k0 :: tail) =
      some (mkChar (0x10000 +
        (((a * 16 + b) * 16 + x) * 16 + d - 0xD800) * 0x400 +
        (((a2 * 16 + b2) * 16 + x2) * 16 + d2 - 0xDC00)), tail) := by
  simp only [decodeU, he3, he2, he1, he0, hf3, hf2, hf1, hf0]
  rw [if_pos hhi, if_pos (⟨trivial, trivial⟩ : True ∧ True), surrogateJoin,
    if_pos hlo]

theorem decodeU_hexQuad (n : Nat) (tail : List Char) (hn : n < 0x10000)
    (hns : n < 0xD800 ∨ 0xDFFF < n) :
    decodeU (hexQuad n ++ tail) = some (mkChar n, tail) := by
  have h := decodeU_cons_scalar (n / 4096 % 16) (n / 256 % 16) (n / 16 % 16)
    (n % 16) (hexDigitChar (n / 4096 % 16)) (hexDigitChar (n / 256 % 16))
    (hexDigitChar (n / 16 % 16)) (hexDigitChar (n % 16)) tail
    (hexVal_hexDigitChar _ (Nat.mod_lt _ (by omega)))
    (hexVal_hexDigitChar _ (Nat.mod_lt _ (by omega)))
    (hexVal_hexDigitChar _ (Nat.mod_lt _ (by omega)))
    (hexVal_hexDigitChar _ (Nat.mod_lt _ (by omega)))
    (by rw [hexRecompose n hn]; exact hns)
  rw [hexRecompose n hn] at h
  simp only [hexQuad, List.cons_append, List.nil_append]
  exact h

theorem decodeU_surrogatePair (n : Nat) (tail : List Char)
    (h1 : 0x10000 <= n) (h2 : n < 0x110000) :
    decodeU (hexQuad (0xD800 + (n - 0x10000) / 0x400) ++ '\\' :: 'u' ::
      (hexQuad (0xDC00 + (n - 0x10000) % 0x400) ++ tail)) =
      some (mkChar n, tail) := by
  have hmod : (n - 0x10000) % 0x400 < 0x400 := Nat.mod_lt _ (by omega)
  have hdiv : (n - 0x10000) / 0x400 < 0x400 := by omega
  have hhiv := hexRecompose (0xD800 + (n - 0x10000) / 0x400) (by omega)
  have hlov := hexRecompose (0xDC00 + (n - 0x10000) % 0x400) (by omega)
  have h := decodeU_cons_pair
    ((0xD800 + (n - 0x10000) / 0x400) / 4096 % 16)
    ((0xD800 + (n - 0x10000) / 0x400) / 256 % 16)
    ((0xD800 + (n - 0x10000) / 0x400) / 16 % 16)
    ((0xD800 + (n - 0x10000) / 0x400) % 16)
    ((0xDC00 + (n - 0x10000) % 0x400) / 4096 % 16)
    ((0xDC00 + (n - 0x10000) % 0x400) / 256 % 16)
    ((0xDC00 + (n - 0x10000) % 0x400) / 16 % 16)
    ((0xDC00 + (n - 0x10000) % 0x400) % 16)
    (hexDigitChar ((0xD800 + (n - 0x10000) / 0x400) / 4096 % 16))
    (hexDigitChar ((0xD800 + (n - 0x10000) / 0x400) / 256 % 16))
    (hexDigitChar ((0xD800 + (n - 0x10000) / 0x400) / 16 % 16))
    (hexDigitChar ((0xD800 + (n - 0x10000) / 0x400) % 16))
    (hexDigitChar ((0xDC00 + (n - 0x10000) % 0x400) / 4096 % 16))
    (hexDigitChar ((0xDC00 + (n - 0x10000) % 0x400) / 256 % 16))
    (hexDigitChar ((0xDC00 + (n - 0x10000) % 0x400) / 16 % 16))
    (hexDigitChar ((0xDC00 + (n - 0x10000) % 0x400) % 16))
    tail
    (hexVal_hexDigitChar _ (Nat.mod_lt _ (by omega)))
    (hexVal_hexDigitChar _ (Nat.mod_lt _ (by omega)))
    (hexVal_hexDigitChar _ (Nat.mod_lt _ (by omega)))
    (hexVal_hexDigitChar _ (Nat.mod_lt _ (by omega)))
    (hexVal_hexDigitChar _ (Nat.mod_lt _ (by omega)))
    (hexVal_hexDigitChar _ (Nat.mod_lt _ (by omega)))
    (hexVal_hexDigitChar _ (Nat.mod_lt _ (by omega)))
    (hexVal_hexDigitChar _ (Nat.mod_lt _ (by omega)))
    (by rw [hhiv]; omega)
    (by rw [hlov]; omega)
  rw [hhiv, hlov] at h
  rw [show 0x10000 + (0xD800 + (n - 0x10000) / 0x400 - 0xD800) * 0x400 +
      (0xDC00 + (n - 0x10000) % 0x400 - 0xDC00) = n from by omega] at h
  simp only [hexQuad, List.cons_append, List.nil_append]
  exact h

theorem mkChar_toNat (c : Char) : mkChar c.toNat = c := by
  rw [mkChar]
  exact Char.ofNat_toNat c

theorem char_not_surrogate (c : Char) : c.toNat < 0xD800 ∨ 0xDFFF < c.toNat := by
  rcases c.valid with h | h
  · exact Or.inl h
  · exact Or.inr h.1

theorem char_lt_codespace (c : Char) : c.toNat < 0x110000 := by
  have he : c.toNat = c.val.toNat := rfl
  rcases c.valid with h | h
  · rw [he]
    omega
  · exact h.2

theorem parseJStrBody_uEscape (n : Nat) (tail : List Char)
    (hn : n < 0x10000) (hns : n < 0xD800 ∨ 0xDFFF < n) :
    parseJStrBody (uEscape4 n ++ tail) =
      (parseJStrBody tail).map (fun p => (mkChar n :: p.1, p.2)) := by
  simp only [uEscape4, List.cons_append]
  simp only [parseJStrBody]
  rw [if_pos trivial, if_pos trivial, decodeU_hexQuad n tail hn hns]
  rw [if_neg (show ¬('\\' : Char) = '"' from by decide)]

theorem parseJStrBody_uEscapePair (n : Nat) (tail : List Char)
    (h1 : 0x10000 ≤ n) (h2 : n < 0x110000) :
    parseJStrBody (uEscape4 (0xD800 + (n - 0x10000) / 0x400) ++
        (uEscape4 (0xDC00 + (n - 0x10000) % 0x400) ++ tail)) =
      (parseJStrBody tail).map (fun p => (mkChar n :: p.1, p.2)) := by
  simp only [uEscape4, List.cons_append]
  simp only [parseJStrBody]
  rw [if_pos trivial, if_pos trivial, decodeU_surrogatePair n tail h1 h2]
  rw [if_neg (show ¬('\\' : Char) = '"' from by decide)]

theorem parseJStrBody_escapeChar (c : Char) (tail : List Char) :
    parseJStrBody (escapeChar c ++ tail) =
      (parseJStrBody tail).map (fun p => (c :: p.1, p.2)) := by
  by_cases h1 : c = '"'
  · subst h1
    simp [escapeChar, parseJStrBody, escCode]
  · by_cases h2 : c = '\\'
    · subst h2
      simp [escapeChar, parseJStrBody, escCode]
    · by_cases h3 : c = '\n'
      · subst h3
        simp [escapeChar, parseJStrBody, escCode]
      · by_cases h4 : c = '\t'
        · subst h4
          simp [escapeChar, parseJStrBody, escCode]
        · by_cases h5 : c = '\r'
          · subst h5
            simp [escapeChar, parseJStrBody, escCode]
          · by_cases h6 : c = Char.ofNat 8
            · subst h6
              simp [escapeChar, parseJStrBody, escCode]
            · by_cases h7 : c = Char.ofNat 12
              · subst h7
                simp [escapeChar, parseJStrBody, escCode]
              · by_cases h8 : c.toNat < 0x20
                · rw [escapeChar, if_neg h1, if_neg h2, if_neg h3, if_neg h4,
                    if_neg h5, if_neg h6, if_neg h7, if_pos h8]
                  rw [parseJStrBody_uEscape c.toNat tail (by omega)
                    (Or.inl (by omega)), mkChar_toNat]
                · by_cases h9 : c.toNat ≤ 0x7e
                  · rw [escapeChar, if_neg h1, if_neg h2, if_neg h3, if_neg h4,
                      if_neg h5, if_neg h6, if_neg h7, if_neg h8, if_pos h9]
                    rw [List.cons_append, List.nil_append]
                    rw [parseJStrBody.eq_def]
                    dsimp only
                    rw [if_neg h1, if_neg h2]
                  · by_cases h10 : c.toNat < 0x10000
                    · rw [escapeChar, if_neg h1, if_neg h2, if_neg h3, if_neg h4,
                        if_neg h5, if_neg h6, if_neg h7, if_neg h8, if_neg h9,
                        if_pos h10]
                      rw [parseJStrBody_uEscape c.toNat tail h10
                        (char_not_surrogate c), mkChar_toNat]
                    · rw [escapeChar, if_neg h1, if_neg h2, if_neg h3, if_neg h4,
                        if_neg h5, if_neg h6, if_neg h7, if_neg h8, if_neg h9,
                        if_neg h10]
                      rw [List.append_assoc]
                      rw [parseJStrBody_uEscapePair c.toNat tail (by omega)
                        (char_lt_codespace c), mkChar_toNat]

theorem parseJStrBody_escList (s tail : List Char) :
    parseJStrBody (escList s ++ '"' :: tail) = some (s, tail) := by
  induction s with
  | nil =>
    rw [escList, List.nil_append, parseJStrBody.eq_def]
    dsimp only
    rw [if_pos rfl]
  | cons c s2 ih =>
    rw [escList, List.append_assoc, parseJStrBody_escapeChar c
      (escList s2 ++ '"' :: tail), ih]
    rfl

/-! ### Round trip of the token and record layers -/

theorem skipWs_cons_of_ne (c : Char) (l : List Char) (h1 : c ≠ ' ')
    (h2 : c ≠ '\t') (h3 : c ≠ '\n') (h4 : c ≠ '\r') :
    skipWs (c :: l) = c :: l := by
  simp [skipWs, List.dropWhile_cons, h1, h2, h3, h4]

theorem skipWs_space (l : List Char) : skipWs (' ' :: l) = skipWs l := by
  simp [skipWs, List.dropWhile_cons]

theorem expectChar_self (c : Char) (l : List Char) (h1 : c ≠ ' ')
    (h2 : c ≠ '\t') (h3 : c ≠ '\n') (h4 : c ≠ '\r') :
    expectChar c (c :: l) = some l := by
  rw [expectChar, skipWs_cons_of_ne c l h1 h2 h3 h4]
  simp

theorem expectChar_space (c : Char) (l : List Char) :
    expectChar c (' ' :: l) = expectChar c l := by
  rw [expectChar, skipWs_space, expectChar]

theorem parseJString_jstrL (s : String) (tail : List Char) :
    parseJString (jstrL s ++ tail) = some (s, tail) := by
  rw [jstrL, List.cons_append, List.append_assoc, List.singleton_append]
  rw [parseJString, skipWs_cons_of_ne _ _ (by decide) (by decide) (by decide)
    (by decide)]
  simp only [if_pos rfl, parseJStrBody_escList]
  rfl

theorem parseJString_space (l : List Char) :
    parseJString (' ' :: l) = parseJString l := by
  rw [parseJString, skipWs_space, parseJString]

theorem intercalate_pair {α : Type} (sep a b : List α) :
    List.intercalate sep [a, b] = a ++ sep ++ b := by
  simp [List.intercalate, List.intersperse]

theorem intercalate_triple {α : Type} (sep a b c : List α) :
    List.intercalate sep [a, b, c] = a ++ sep ++ b ++ sep ++ c := by
  simp [List.intercalate, List.intersperse]

theorem parseRCObj_render (x y : String × String) (tail : List Char) :
    parseRCObj (renderStrObj [x, y] ++ tail) = some ([x, y], tail) := by
  rw [renderStrObj]
  simp only [List.map_cons, List.map_nil]
  rw [intercalate_pair, renderPair, renderPair]
  simp only [List.cons_append, List.append_assoc, List.nil_append,
    List.singleton_append]
  rw [parseRCObj]
  rw [expectChar_self _ _ (by decide) (by decide) (by decide) (by decide)]
  simp only [Option.bind_eq_bind, Option.some_bind]
  rw [parseJString_jstrL]
  simp only [Option.some_bind]
  rw [expectChar_self _ _ (by decide) (by decide) (by decide) (by decide)]
  simp only [Option.some_bind]
  rw [parseJString_space, parseJString_jstrL]
  simp only [Option.some_bind]
  rw [expectChar_self _ _ (by decide) (by decide) (by decide) (by decide)]
  simp only [Option.some_bind]
  rw [parseJString_space, parseJString_jstrL]
  simp only [Option.some_bind]
  rw [expectChar_self _ _ (by decide) (by decide) (by decide) (by decide)]
  simp only [Option.some_bind]
  rw [parseJString_space, parseJString_jstrL]
  simp only [Option.some_bind]
  rw [expectChar_self _ _ (by decide) (by decide) (by decide) (by decide)]
  simp only [Option.some_bind]

theorem parseRCObj_space (l : List Char) :
    parseRCObj (' ' :: l) = parseRCObj l := by
  rw [parseRCObj, parseRCObj, expectChar_space]

theorem parseLine_render (k : String) (x1 y1 x2 y2 x3 y3 : String × String) :
    parseLine (String.mk (renderTop k [[x1, y1], [x2, y2], [x3, y3]])) =
      some (k, [[x1, y1], [x2, y2], [x3, y3]]) := by
  rw [parseLine]
  rw [show (String.mk (renderTop k [[x1, y1], [x2, y2], [x3, y3]])).data =
    renderTop k [[x1, y1], [x2, y2], [x3, y3]] from rfl]
  rw [renderTop]
  simp only [List.map_cons, List.map_nil]
  rw [intercalate_triple]
  simp only [List.cons_append, List.append_assoc, List.nil_append,
    List.singleton_append]
  rw [expectChar_self _ _ (by decide) (by decide) (by decide) (by decide)]
  simp only [Option.bind_eq_bind, Option.some_bind]
  rw [parseJString_jstrL]
  simp only [Option.some_bind]
  rw [expectChar_self _ _ (by decide) (by decide) (by decide) (by decide)]
  simp only [Option.some_bind]
  rw [expectChar_space, expectChar_self _ _ (by decide) (by decide) (by decide)
    (by decide)]
  simp only [Option.some_bind]
  rw [parseRCObj_render]
  simp only [Option.some_bind]
  rw [expectChar_self _ _ (by decide) (by decide) (by decide) (by decide)]
  simp only [Option.some_bind]
  rw [parseRCObj_space, parseRCObj_render]
  simp only [Option.some_bind]
  rw [expectChar_self _ _ (by decide) (by decide) (by decide) (by decide)]
  simp only [Option.some_bind]
  rw [parseRCObj_space, parseRCObj_render]
  simp only [Option.some_bind]
  rw [expectChar_self _ _ (by decide) (by decide) (by decide) (by decide)]
  simp only [Option.some_bind]
  rw [expectChar_self _ _ (by decide) (by decide) (by decide) (by decide)]
  simp only [Option.some_bind]
  rfl

/-- Every successfully processed file yields an entry of the fixed
three-message shape. -/
theorem process_ok_shape (persona : String) (rf svc : String → Option String)
    (path : String) (ent : TrainingEntry)
    (h : (process_text_file persona rf svc path).1 = Except.ok ent) :
    ∃ q r, ent = ⟨[⟨"system", persona⟩, ⟨"user", q⟩, ⟨"assistant", r⟩]⟩ := by
  cases hr : rf path with
  | none =>
    rw [process_text_file_read_fail persona rf svc path hr] at h
    exact absurd h (by simp)
  | some R =>
    cases hs : svc R with
    | none =>
      rw [process_text_file_svc_fail persona rf svc path R hr hs] at h
      exact absurd h (by simp)
    | some raw =>
      rw [process_text_file_ok persona rf svc path R raw hr hs] at h
      exact ⟨pyStrip raw, R, (Except.ok.inj h).symm⟩

/-- Every entry of a successful run has the fixed three-message shape. -/
theorem gen_shape (persona d : String) (rf svc : String → Option String) :
    ∀ (names : List String) (es : List TrainingEntry),
    (generate_training_data persona d rf svc names).1 = Except.ok es →
    ∀ e ∈ es, ∃ q r,
      e = ⟨[⟨"system", persona⟩, ⟨"user", q⟩, ⟨"assistant", r⟩]⟩
  | [], es, h => by
    simp only [generate_training_data] at h
    intro e he
    have hnil : es = [] := (Except.ok.inj h).symm
    subst hnil
    exact absurd he (List.not_mem_nil e)
  | n :: rest, es, h => by
    by_cases hq : py_endswith n ".txt" = true
    · rcases hp : process_text_file persona rf svc (os_path_join d n)
        with ⟨res, t⟩
      cases res with
      | error e2 =>
        rw [show (generate_training_data persona d rf svc (n :: rest)).1 =
            Except.error e2 from by
          simp only [generate_training_data, hq, if_true, hp]] at h
        exact absurd h (by simp)
      | ok entry =>
        rcases hg : generate_training_data persona d rf svc rest with ⟨res2, t2⟩
        cases res2 with
        | error e2 =>
          rw [show (generate_training_data persona d rf svc (n :: rest)).1 =
              Except.error e2 from by
            simp only [generate_training_data, hq, if_true, hp, hg]] at h
          exact absurd h (by simp)
        | ok es2 =>
          rw [show (generate_training_data persona d rf svc (n :: rest)).1 =
              Except.ok (entry :: es2) from by
            simp only [generate_training_data, hq, if_true, hp, hg]] at h
          have hes : entry :: es2 = es := by
            simpa using h
          intro e he
          rw [← hes] at he
          rcases List.mem_cons.1 he with rfl | he2
          · exact process_ok_shape persona rf svc (os_path_join d n) e
              (by rw [hp])
          · exact gen_shape persona d rf svc rest es2 (by rw [hg]) e he2
    · rw [gen_cons_skip persona d rf svc n rest (Bool.eq_false_iff.mpr hq)] at h
      exact gen_shape persona d rf svc rest es h

/-- C8: every line of a successful run's output is the serialization of
a three-message record; parsing it as JSON succeeds and returns exactly
the object with key `messages` holding three role/content objects with
the record's strings, and re-serializing that parse result reproduces
the line byte for byte. -/
theorem c8_output_lines_round_trip (persona d : String)
    (rf svc : String → Option String) (names : List String)
    (lines : List String)
    (h : (main_run persona d (some names) rf svc).1 = some lines) :
    ∀ line ∈ lines, ∃ q r,
      line = entryLine ⟨[⟨"system", persona⟩, ⟨"user", q⟩,
        ⟨"assistant", r⟩]⟩ ∧
      parseLine line = some ("messages",
        [[("role", "system"), ("content", persona)],
         [("role", "user"), ("content", q)],
         [("role", "assistant"), ("content", r)]]) ∧
      String.mk (renderParsed ("messages",
        [[("role", "system"), ("content", persona)],
         [("role", "user"), ("content", q)],
         [("role", "assistant"), ("content", r)]])) = line := by
  rcases hb : build persona d (some names) rf svc with ⟨res, t⟩
  rw [main_run, hb] at h
  cases res with
  | error e2 => exact absurd h (by simp)
  | ok es =>
    simp only at h
    have hlines : es.map entryLine = lines := Option.some.inj h
    have hshape := gen_shape persona d rf svc names es
      (by rw [show generate_training_data persona d rf svc names =
          build persona d (some names) rf svc from rfl, hb])
    intro line hline
    rw [← hlines] at hline
    obtain ⟨e, he, rfl⟩ := List.mem_map.1 hline
    obtain ⟨q, r, rfl⟩ := hshape e he
    refine ⟨q, r, rfl, ?_, ?_⟩
    · rw [show entryLine ⟨[⟨"system", persona⟩, ⟨"user", q⟩,
          ⟨"assistant", r⟩]⟩ =
        String.mk (renderTop "messages"
          [[("role", "system"), ("content", persona)],
           [("role", "user"), ("content", q)],
           [("role", "assistant"), ("content", r)]]) from rfl]
      exact parseLine_render "messages" ("role", "system")
        ("content", persona) ("role", "user") ("content", q)
        ("role", "assistant") ("content", r)
    · rfl

theorem c8_output_lines_round_trip_witness :
    ((main_run "P" "d" (some ["a.txt"])
        (fun p => if p = "d/a.txt" then some "doc" else none)
        (fun q => if q = "doc" then some " Q " else none)).1 =
      some [entryLine ⟨[⟨"system", "P"⟩, ⟨"user", "Q"⟩,
        ⟨"assistant", "doc"⟩]⟩]) ∧
    (∀ line ∈ [entryLine ⟨[⟨"system", "P"⟩, ⟨"user", "Q"⟩,
        ⟨"assistant", "doc"⟩]⟩], ∃ q r,
      line = entryLine ⟨[⟨"system", "P"⟩, ⟨"user", q⟩,
        ⟨"assistant", r⟩]⟩ ∧
      parseLine line = some ("messages",
        [[("role", "system"), ("content", "P")],
         [("role", "user"), ("content", q)],
         [("role", "assistant"), ("content", r)]]) ∧
      String.mk (renderParsed ("messages",
        [[("role", "system"), ("content", "P")],
         [("role", "user"), ("content", q)],
         [("role", "assistant"), ("content", r)]])) = line) :=
  ⟨by decide,
    c8_output_lines_round_trip "P" "d"
      (fun p => if p = "d/a.txt" then some "doc" else none)
      (fun q => if q = "doc" then some " Q " else none)
      ["a.txt"]
      [entryLine ⟨[⟨"system", "P"⟩, ⟨"user", "Q"⟩, ⟨"assistant", "doc"⟩]⟩]
      (by decide)⟩

end PrepareFineTune
